import Mathlib

/-!
Shallow embedding of the weather-dashboard UI repository
(src/basic-ui-setup.py, src/interactive-components-ux.py,
src/weather-alerts-notifs.py).

Numeric weather fields (Python floats in the source) are modelled as exact
rationals; every constant appearing in the source or the claims (35.0, -10.0,
15.0, 980.0, 70.0, 1013, 36.0, 20, 970, 80, ...) is exactly representable in
binary floating point, so the comparisons and arithmetic below agree with the
Python behaviour at these values.
-/

/-- Models Python f-string formatting with `:.1f` for the rational values in
use: one decimal digit, half-up rounding computed by integer floor division
(Python rounds the binary value half-to-even, which only differs at exact
ties that never arise at the claims' inputs). -/
def formatFixed1 (q : ℚ) : String :=
  let d : Int := Int.ofNat q.den
  let n : Int := Int.fdiv (20 * q.num + d) (2 * d)
  let sign := if n < 0 then "-" else ""
  let m := n.natAbs
  sign ++ toString (m / 10) ++ "." ++ toString (m % 10)

/-- Models Python f-string formatting with `:.0f` (same rounding caveat as
`formatFixed1`). -/
def formatFixed0 (q : ℚ) : String :=
  let d : Int := Int.ofNat q.den
  let n : Int := Int.fdiv (2 * q.num + d) (2 * d)
  let sign := if n < 0 then "-" else ""
  sign ++ toString n.natAbs

/-- One row of weather data as the UI receives it: a dictionary whose keys may
be absent (`none` models an absent key).  `humidity` is shown with `str` in
the source (`f"{data['humidity']}%"`), so it is carried as an integer. -/
structure Reading where
  temperature : Option ℚ := none
  feels_like : Option ℚ := none
  humidity : Option Int := none
  pressure : Option ℚ := none
  wind_speed : Option ℚ := none
  weather_description : Option String := none
  comfort_index : Option ℚ := none
  heat_index_c : Option ℚ := none
  wind_chill_c : Option ℚ := none
  weather_severity : Option ℚ := none
  timestamp : Option String := none
deriving DecidableEq

/-- One alert record, with the five dictionary keys used by
`WeatherAlertsManager.check_weather_alerts`
(src/weather-alerts-notifs.py lines 34-81). -/
structure Alert where
  type : String
  severity : String
  title : String
  message : String
  icon : String
deriving DecidableEq

/-- `WeatherAlertsManager.alert_thresholds`
(src/weather-alerts-notifs.py lines 18-24), with the constructor defaults set
to the values installed by `__init__`. -/
structure AlertThresholds where
  high_temperature : ℚ := 35
  low_temperature : ℚ := -10
  high_wind_speed : ℚ := 15
  low_pressure : ℚ := 980
  high_severity : ℚ := 70
deriving DecidableEq

/-- The thresholds installed by `WeatherAlertsManager.__init__`. -/
def defaultThresholds : AlertThresholds := {}

/-- `WeatherAlertsManager.check_weather_alerts`
(src/weather-alerts-notifs.py lines 27-90): each `weather_data.get(key, d)`
becomes `Option.getD`; the four threshold checks append to `new_alerts` in the
source's order (temperature if/elif, wind, pressure, severity).  Alert fields
are in the source's key order: type, severity, title, message, icon. -/
def check_weather_alerts (th : AlertThresholds) (weather_data : Reading) : List Alert :=
  let new_alerts : List Alert := []
  -- Temperature alerts
  let temp := weather_data.temperature.getD 0
  let new_alerts :=
    if temp > th.high_temperature then
      new_alerts ++ [⟨"temperature", "warning", "High Temperature Alert",
        "Temperature is very high: " ++ formatFixed1 temp ++ "°C", "🔥"⟩]
    else if temp < th.low_temperature then
      new_alerts ++ [⟨"temperature", "warning", "Low Temperature Alert",
        "Temperature is very low: " ++ formatFixed1 temp ++ "°C", "🥶"⟩]
    else new_alerts
  -- Wind speed alerts
  let wind_speed := weather_data.wind_speed.getD 0
  let new_alerts :=
    if wind_speed > th.high_wind_speed then
      new_alerts ++ [⟨"wind", "caution", "High Wind Alert",
        "Strong winds detected: " ++ formatFixed1 wind_speed ++ " m/s", "💨"⟩]
    else new_alerts
  -- Pressure alerts (potential storms)
  let pressure := weather_data.pressure.getD 1013
  let new_alerts :=
    if pressure < th.low_pressure then
      new_alerts ++ [⟨"pressure", "watch", "Low Pressure Alert",
        "Low pressure system detected: " ++ formatFixed1 pressure ++ " hPa", "⛈️"⟩]
    else new_alerts
  -- Weather severity alerts
  let severity := weather_data.weather_severity.getD 0
  let new_alerts :=
    if severity > th.high_severity then
      new_alerts ++ [⟨"severity", "warning", "Severe Weather Alert",
        "High weather severity index: " ++ formatFixed0 severity ++ "/100", "⚠️"⟩]
    else new_alerts
  new_alerts


/-- The first occurrence of the two-character separator `", "` in a character
list: `some (before, after)` when present (`before` the text preceding it,
`after` the text following it), `none` when absent. -/
def splitFirst : List Char → Option (List Char × List Char)
  | [] => none
  | [_] => none
  | c1 :: c2 :: rest =>
    if c1 = ',' ∧ c2 = ' ' then some ([], rest)
    else
      match splitFirst (c2 :: rest) with
      | none => none
      | some (b, a) => some (c1 :: b, a)

/-- Python `s.split(', ')`: splits at every (non-overlapping, left-to-right)
occurrence of the separator, keeping empty chunks, never returning an empty
list. -/
def splitCS : List Char → List (List Char)
  | [] => [[]]
  | [c] => [[c]]
  | c1 :: c2 :: rest =>
    if c1 = ',' ∧ c2 = ' ' then [] :: splitCS rest
    else
      match splitCS (c2 :: rest) with
      | [] => [[c1]]
      | b :: bs => (c1 :: b) :: bs

/-- The `(city, country)` recovery idiom appearing verbatim at
src/basic-ui-setup.py lines 348-349, src/interactive-components-ux.py
lines 17-18 and src/weather-alerts-notifs.py lines 164-165:
`city_parts = s.split(', ')` then
`city, country = city_parts[0], city_parts[1] if len(city_parts) > 1 else ''`
(the conditional expression binds to `city_parts[1]` alone). -/
def parse_city_selector (s : String) : String × String :=
  let city_parts := (splitCS s.data).map List.asString
  (city_parts.getD 0 "", if 1 < city_parts.length then city_parts.getD 1 "" else "")

/-- The spec's description of the same recovery ("must be split on the first
`\", \"` to recover `(city, country)`"): the city is the text before the first
separator (the whole string when there is none). -/
def specCityOf (s : String) : String :=
  match splitFirst s.data with
  | none => s
  | some (b, _) => b.asString

/-- The spec's description of the country: the entire remainder after the
first `", "`, the empty string when no separator occurs. -/
def specCountryOf (s : String) : String :=
  match splitFirst s.data with
  | none => ""
  | some (_, a) => a.asString


/-- All-digit run parsed to a natural number; `none` when empty or when any
character is not an ASCII digit. -/
def parseDigits (ds : List Char) : Option Nat :=
  if ds = [] then none
  else if ds.all Char.isDigit then
    some (ds.foldl (fun acc c => acc * 10 + (c.toNat - '0'.toNat)) 0)
  else none

/-- Models Python's `int(s)` on a string: surrounding whitespace is stripped,
an optional single `+`/`-` sign precedes a nonempty digit run; anything else
raises `ValueError`, modelled as `none`.  (Python additionally accepts
underscore digit separators, which no claim input uses.) -/
def pyInt (s : String) : Option Int :=
  let cs := ((s.data.dropWhile Char.isWhitespace).reverse.dropWhile
    Char.isWhitespace).reverse
  match cs with
  | '-' :: ds => (parseDigits ds).map (fun n => -(n : Int))
  | '+' :: ds => (parseDigits ds).map (fun n => (n : Int))
  | ds => (parseDigits ds).map (fun n => (n : Int))

/-- The preference state touched by `PreferencesDialog.apply_preferences`:
`app.refresh_interval` (milliseconds, src/basic-ui-setup.py line 34) and the
process-wide ttk theme. -/
structure AppPrefs where
  refresh_interval : Int
  theme : String
deriving DecidableEq

/-- Outcome of one Apply click: the dialog is destroyed on success; on a
`ValueError` from `int()` the error box "Please enter a valid refresh
interval" is shown instead. -/
inductive ApplyOutcome
  | applied
  | invalidInterval
deriving DecidableEq

/-- `PreferencesDialog.apply_preferences`
(src/interactive-components-ux.py lines 230-244): `int(self.refresh_var.get())
* 1000` is stored as the new interval and the theme is applied, unless `int`
raises `ValueError`, in which case nothing is mutated.  The function never
reads `temp_units_var`: the temperature-unit selection is discarded. -/
def apply_preferences (app : AppPrefs) (refresh_var theme_var : String) :
    AppPrefs × ApplyOutcome :=
  match pyInt refresh_var with
  | some n => (⟨n * 1000, theme_var⟩, ApplyOutcome.applied)
  | none => (app, ApplyOutcome.invalidInterval)

/-- The claim's notion of a "valid positive integer" interval string: `int()`
accepts it and the value is strictly positive. -/
def validPositiveInterval (s : String) : Bool :=
  match pyInt s with
  | some n => n > 0
  | none => false


/-- Python `str.title()` (ASCII behaviour): the first letter of each
alphabetic run is uppercased, the rest lowercased. -/
def pyTitleAux : Bool → List Char → List Char
  | _, [] => []
  | prevAlpha, c :: cs =>
    (if c.isAlpha then (if prevAlpha then c.toLower else c.toUpper) else c)
      :: pyTitleAux c.isAlpha cs

/-- Python `str.title()` on a string. -/
def pyTitle (s : String) : String :=
  (pyTitleAux false s.data).asString

/-- The texts `_update_ui_with_data` (src/basic-ui-setup.py lines 363-404)
writes into the widgets, plus the comfort progress-bar value and the style tag
chosen for the temperature label.  The `local_time_label` text reads the wall
clock (`datetime.now()`) and is outside this deterministic embedding. -/
structure ViewModel where
  tempText : String
  descText : String
  feelsLikeText : String
  humidityText : String
  pressureText : String
  windText : String
  comfortText : String
  comfortBar : ℚ
  heatIndexText : String
  windChillText : String
  severityText : String
  lastUpdateText : String
  tempStyle : String
deriving DecidableEq

/-- `_update_ui_with_data` (src/basic-ui-setup.py lines 363-404).  Direct
subscripts (`data['temperature']`, `data['weather_description']`, ...) raise
`KeyError` on an absent key, modelled by `none`; `data.get(key, 0)` accesses
become `Option.getD`.  The temperature is always formatted with the `°C`
suffix; no unit conversion appears anywhere on this path. -/
def update_ui_with_data (data : Reading) : Option ViewModel :=
  match data.temperature, data.weather_description, data.feels_like,
      data.humidity, data.pressure, data.wind_speed, data.timestamp with
  | some temp, some desc, some fl, some hum, some pres, some ws, some ts =>
    some ⟨formatFixed1 temp ++ "°C",
      pyTitle desc,
      formatFixed1 fl ++ "°C",
      toString hum ++ "%",
      formatFixed1 pres ++ " hPa",
      formatFixed1 ws ++ " m/s",
      formatFixed0 (data.comfort_index.getD 0) ++ "/100",
      data.comfort_index.getD 0,
      "Heat Index: " ++ formatFixed1 (data.heat_index_c.getD 0) ++ "°C",
      "Wind Chill: " ++ formatFixed1 (data.wind_chill_c.getD 0) ++ "°C",
      "Weather Severity: " ++ formatFixed0 (data.weather_severity.getD 0) ++ "/100",
      "Last Update: " ++ ts,
      if temp > 30 then "Hot.TLabel" else if temp < 10 then "Cold.TLabel"
        else "Normal.TLabel"⟩
  | _, _, _, _, _, _, _ => none

/-- The temperature display unit offered by the Preferences dialog
(src/interactive-components-ux.py lines 206-209). -/
inductive TemperatureUnit
  | celsius
  | fahrenheit
deriving DecidableEq

/-- The rendering reached for a given unit preference.  `apply_preferences`
(src/interactive-components-ux.py lines 230-244) never reads
`temp_units_var`, so no unit selection is ever stored, and
`_update_ui_with_data` runs the same code whatever the dialog's combobox
held: both branches are the one source path. -/
def rendered_view (_u : TemperatureUnit) (data : Reading) : Option ViewModel :=
  update_ui_with_data data

/-- Modelled from the spec: the Celsius-to-Fahrenheit conversion
`F = C*9/5+32` the spec says the ViewModel applies when Preferences specify
Fahrenheit (no such conversion exists in src/). -/
def celsius_to_fahrenheit (c : ℚ) : ℚ := c * 9 / 5 + 32

/-- `get_current_weather_data` (src/basic-ui-setup.py lines 406-430).  Its
database interaction is abstracted as `dbRes`: `Except.ok (some r)` for a row,
`Except.ok none` for an empty result, `Except.error e` for an
`sqlite3.Error` with message `e`.  The `except sqlite3.Error` arm prints the
error to the console and returns `None` — exactly what an empty result
returns. -/
def get_current_weather_data (dbRes : Except String (Option Reading)) :
    Option Reading :=
  match dbRes with
  | Except.ok row => row
  | Except.error _ => none

/-- The calls `_load_data_background` hands to the interactive thread via
`root.after`. -/
inductive UiAction
  | updateUI (data : Reading)
  | status (msg : String)
  | showError (msg : String)
deriving DecidableEq

/-- `_load_data_background` (src/basic-ui-setup.py lines 344-361): parses the
current city selector, fetches the latest reading, and posts `updateUI` on
data, or the fixed "No data available" status on `None` (the outer
`except Exception` arm, which would post `show_error`, is unreachable here
because `get_current_weather_data` already swallows query errors). -/
def load_data_background (current_city : String)
    (dbRes : Except String (Option Reading)) : UiAction :=
  let _city_country := parse_city_selector current_city
  match get_current_weather_data dbRes with
  | some current_data => UiAction.updateUI current_data
  | none => UiAction.status "No data available for selected city"

/-- The mutable view state owned by the interactive thread:
`self.current_city` (src/basic-ui-setup.py line 32, updated by
`on_city_changed`) and `self.current_data` (line 33, updated by
`_update_ui_with_data` line 365). -/
structure AppState where
  current_city : String
  current_data : Option Reading
deriving DecidableEq

/-- Interactive-thread events relevant to city selection: `selectCity` is
`on_city_changed` (src/interactive-components-ux.py lines 134-137);
`applyResponse tag data` is the `root.after(0, self._update_ui_with_data,
current_data)` callback posted by the background fetch that was started while
`tag` was the selected city. -/
inductive UIEvent
  | selectCity (selector : String)
  | applyResponse (tag : String) (data : Reading)
deriving DecidableEq

/-- One interactive-thread step.  `_update_ui_with_data`
(src/basic-ui-setup.py lines 363-365) stores the response unconditionally:
it never compares the response's city tag against `current_city`. -/
def ui_step (s : AppState) : UIEvent → AppState
  | UIEvent.selectCity sel => ⟨sel, s.current_data⟩
  | UIEvent.applyResponse _tag data => ⟨s.current_city, some data⟩

/-- A sequence of interactive-thread events applied in order. -/
def ui_run (s : AppState) (evs : List UIEvent) : AppState :=
  evs.foldl ui_step s

/-- Timer bookkeeping of the auto-refresh loop: how many `root.after` timers
for `start_auto_refresh` are pending, and how many background fetch threads
are in flight. -/
structure RefreshState where
  pendingTimers : Nat
  inFlight : Nat
deriving DecidableEq

/-- Events of the refresh loop: a pending timer fires and runs
`start_auto_refresh` (src/interactive-components-ux.py lines 152-155); a
background fetch thread finishes; the user triggers `refresh_data` manually
(button, menu, or city change). -/
inductive RefreshEvent
  | timerFire
  | fetchComplete
  | manualRefresh
deriving DecidableEq

/-- One refresh-loop step.  `start_auto_refresh` consumes its fired timer,
starts a background fetch via `refresh_data` (src/basic-ui-setup.py lines
334-342), and immediately arms exactly one future timer — at cycle start, not
completion.  A completing fetch arms nothing.  A manual `refresh_data` starts
a fetch without touching the timer.  No step consults `inFlight`: nothing in
the source prevents overlap. -/
def refresh_step (s : RefreshState) : RefreshEvent → RefreshState
  | RefreshEvent.timerFire => ⟨s.pendingTimers - 1 + 1, s.inFlight + 1⟩
  | RefreshEvent.fetchComplete => ⟨s.pendingTimers, s.inFlight - 1⟩
  | RefreshEvent.manualRefresh => ⟨s.pendingTimers, s.inFlight + 1⟩

/-- A sequence of refresh-loop events applied in order. -/
def refresh_run (s : RefreshState) (evs : List RefreshEvent) : RefreshState :=
  evs.foldl refresh_step s

/-- Whether an event can occur in a state: a timer can only fire if one is
pending, a fetch can only complete if one is in flight. -/
def eventEnabled (s : RefreshState) : RefreshEvent → Bool
  | RefreshEvent.timerFire => 1 ≤ s.pendingTimers
  | RefreshEvent.fetchComplete => 1 ≤ s.inFlight
  | RefreshEvent.manualRefresh => true

/-- Whether a trace is possible: every event enabled in the state it occurs
in. -/
def validTrace (s : RefreshState) : List RefreshEvent → Bool
  | [] => true
  | e :: es => eventEnabled s e && validTrace (refresh_step s e) es

/-- The events that start a new refresh cycle. -/
def startsCycle : RefreshEvent → Bool
  | RefreshEvent.timerFire => true
  | RefreshEvent.fetchComplete => false
  | RefreshEvent.manualRefresh => true

/-- The claim's no-overlap discipline: along the trace, a cycle only ever
starts when no fetch is in flight. -/
def noOverlap (s : RefreshState) : List RefreshEvent → Bool
  | [] => true
  | e :: es =>
    (!startsCycle e || s.inFlight == 0) && noOverlap (refresh_step s e) es

/-- The refresh loop's state just after an auto-refresh cycle has fully
completed: one timer armed, no fetch in flight. -/
def refreshInit : RefreshState := ⟨1, 0⟩


/-- The substring relation on strings: `sub` occurs contiguously in `s`. -/
def containsSubstr (s sub : String) : Prop :=
  ∃ pre post, s = pre ++ sub ++ post

/-- The country the code actually recovers, per the amended reading of the
selector invariant: the second `", "`-separated field — the text after the
first separator up to the next separator, the whole remainder when only one
separator occurs, empty when none occurs. -/
def secondFieldOf (s : String) : String :=
  match splitFirst s.data with
  | none => ""
  | some (_, a) =>
    (match splitFirst a with
     | none => a
     | some (b2, _) => b2).asString

/-- The reading of testable property 6 of the spec. -/
def readingC2 : Reading :=
  { temperature := some 20, wind_speed := some 20, pressure := some 970,
    weather_severity := some 80 }

/-- The reading of testable property 5 of the spec. -/
def readingC3 : Reading :=
  { temperature := some 36, wind_speed := some 5, pressure := some 1010,
    weather_severity := some 10 }

/-- A complete reading at 20 °C used to probe the unit-preference behaviour. -/
def readingC6 : Reading :=
  { temperature := some 20, feels_like := some 19, humidity := some 50,
    pressure := some 1013, wind_speed := some 3,
    weather_description := some "clear sky",
    timestamp := some "2024-01-01 12:00:00" }

/-- The view `update_ui_with_data` produces for `readingC6`. -/
def vmC6 : ViewModel :=
  ⟨"20.0°C", "Clear Sky", "19.0°C", "50%", "1013.0 hPa", "3.0 m/s", "0/100", 0,
    "Heat Index: 0.0°C", "Wind Chill: 0.0°C", "Weather Severity: 0/100",
    "Last Update: 2024-01-01 12:00:00", "Normal.TLabel"⟩

/-- A response fetched while city "A, X" was selected. -/
def readingA : Reading := { temperature := some 1 }

/-- A response fetched while city "B, Y" was selected. -/
def readingB : Reading := { temperature := some 2 }

/-- A prior preference state: the 30-second startup interval and the startup
theme (src/basic-ui-setup.py lines 34 and 46). -/
def priorPrefs : AppPrefs := ⟨30000, "clam"⟩

/-- How `splitCS` behaves when the separator does not occur: the whole string
is the single chunk. -/
theorem splitCS_eq_single : ∀ s : List Char, splitFirst s = none → splitCS s = [s]
  | [], _ => rfl
  | [_], _ => rfl
  | c1 :: c2 :: rest, h => by
    by_cases hc : c1 = ',' ∧ c2 = ' '
    · simp [splitFirst, hc] at h
    · simp only [splitFirst, if_neg hc] at h
      cases hsf : splitFirst (c2 :: rest) with
      | none =>
        simp only [splitCS, if_neg hc, splitCS_eq_single (c2 :: rest) hsf]
      | some p =>
        rw [hsf] at h
        simp at h

/-- How `splitCS` unfolds at the first separator occurrence: the text before
it is the first chunk and the remainder is split recursively. -/
theorem splitCS_eq_cons : ∀ (s b a : List Char), splitFirst s = some (b, a) →
    splitCS s = b :: splitCS a
  | [], b, a, h => by simp [splitFirst] at h
  | [_], b, a, h => by simp [splitFirst] at h
  | c1 :: c2 :: rest, b, a, h => by
    by_cases hc : c1 = ',' ∧ c2 = ' '
    · obtain ⟨h1, h2⟩ := hc
      subst h1; subst h2
      simp only [splitFirst, and_self, if_true, Option.some.injEq, Prod.mk.injEq] at h
      obtain ⟨hb, ha⟩ := h
      subst hb; subst ha
      simp [splitCS]
    · simp only [splitFirst, if_neg hc] at h
      cases hsf : splitFirst (c2 :: rest) with
      | none => rw [hsf] at h; simp at h
      | some p =>
        obtain ⟨b', a'⟩ := p
        rw [hsf] at h
        simp only [Option.some.injEq, Prod.mk.injEq] at h
        obtain ⟨hb, ha⟩ := h
        subst hb; subst ha
        simp only [splitCS, if_neg hc, splitCS_eq_cons (c2 :: rest) b' a' hsf]

/-- Claim C1: for every reading whose temperature field exceeds the
high-temperature threshold, `check_weather_alerts` emits exactly one
temperature alert — the high-temperature one, with severity "warning" — and
in particular never a low-temperature alert for the same reading. -/
theorem claim1_high_temp_alert_exclusive (th : AlertThresholds) (r : Reading)
    (t : ℚ) (ht : r.temperature = some t) (hgt : th.high_temperature < t) :
    (check_weather_alerts th r).filter (fun a => a.type == "temperature") =
      [⟨"temperature", "warning", "High Temperature Alert",
        "Temperature is very high: " ++ formatFixed1 t ++ "°C", "🔥"⟩] := by
  unfold check_weather_alerts
  rw [ht]
  simp only [Option.getD_some]
  rw [if_pos hgt]
  split_ifs <;> simp [List.filter]

/-- Witness for claim C1 at the concrete reading with temperature 36 and the
default thresholds. -/
theorem claim1_high_temp_alert_exclusive_witness :
    ({ temperature := some 36 } : Reading).temperature = some 36 ∧
    defaultThresholds.high_temperature < 36 ∧
    (check_weather_alerts defaultThresholds { temperature := some 36 }).filter
        (fun a => a.type == "temperature") =
      [⟨"temperature", "warning", "High Temperature Alert",
        "Temperature is very high: " ++ formatFixed1 36 ++ "°C", "🔥"⟩] :=
  ⟨rfl, by decide,
    claim1_high_temp_alert_exclusive defaultThresholds _ 36 rfl (by decide)⟩

/-- Claim C2: for the reading with temperature 20, wind speed 20, pressure 970
and severity 80 under the default thresholds, `check_weather_alerts` returns
exactly three alerts, in the order wind, pressure, severity. -/
theorem claim2_three_alerts_wind_pressure_severity :
    check_weather_alerts defaultThresholds readingC2 =
      [⟨"wind", "caution", "High Wind Alert",
        "Strong winds detected: 20.0 m/s", "💨"⟩,
       ⟨"pressure", "watch", "Low Pressure Alert",
        "Low pressure system detected: 970.0 hPa", "⛈️"⟩,
       ⟨"severity", "warning", "Severe Weather Alert",
        "High weather severity index: 80/100", "⚠️"⟩] ∧
    (check_weather_alerts defaultThresholds readingC2).map Alert.type =
      ["wind", "pressure", "severity"] := by
  exact ⟨by decide, by decide⟩

/-- Claim C3: for the reading with temperature 36.0, wind speed 5, pressure
1010 and severity 10 under the default thresholds, `check_weather_alerts`
returns exactly one alert — a high-temperature warning whose message contains
the substring "36.0". -/
theorem claim3_single_high_temp_alert :
    check_weather_alerts defaultThresholds readingC3 =
      [⟨"temperature", "warning", "High Temperature Alert",
        "Temperature is very high: 36.0°C", "🔥"⟩] ∧
    containsSubstr "Temperature is very high: 36.0°C" "36.0" :=
  ⟨by decide, ⟨"Temperature is very high: ", "°C", by decide⟩⟩

/-- Claim C4 counterexample: on "Washington, D.C., USA" the code recovers the
country "D.C." — the second comma-separated field — while the claim (country
is the entire remainder after the first separator) predicts "D.C., USA". -/
theorem claim4_country_counterexample :
    parse_city_selector "Washington, D.C., USA" = ("Washington", "D.C.") ∧
    specCountryOf "Washington, D.C., USA" = "D.C., USA" ∧
    (parse_city_selector "Washington, D.C., USA").2 ≠
      specCountryOf "Washington, D.C., USA" := by
  exact ⟨by decide, by decide, by decide⟩

/-- Claim C4 as amended: for every selector string the code recovers the city
as the text before the first `", "` (the whole string when none occurs), and
the country as the second `", "`-separated field — the text between the first
and second separators, the entire remainder only when no second separator
exists, and empty when no separator occurs at all. -/
theorem claim4_country_is_second_field (s : String) :
    parse_city_selector s = (specCityOf s, secondFieldOf s) := by
  unfold parse_city_selector specCityOf secondFieldOf
  cases hsf : splitFirst s.data with
  | none =>
    rw [splitCS_eq_single s.data hsf]
    simp [List.asString]
  | some p =>
    obtain ⟨b, a⟩ := p
    rw [splitCS_eq_cons s.data b a hsf]
    cases hsf2 : splitFirst a with
    | none =>
      rw [splitCS_eq_single a hsf2]
      simp [hsf2]
    | some p2 =>
      obtain ⟨b2, a2⟩ := p2
      rw [splitCS_eq_cons a b2 a2 hsf2]
      simp [hsf2]

/-- Claim C5 counterexample: the interval string "0" is not a valid positive
integer, yet `apply_preferences` accepts it — no error is reported and the
refresh interval is mutated from its prior value to 0. -/
theorem claim5_zero_interval_accepted :
    validPositiveInterval "0" = false ∧
    apply_preferences priorPrefs "0" "clam" =
      (⟨0, "clam"⟩, ApplyOutcome.applied) ∧
    (apply_preferences priorPrefs "0" "clam").1 ≠ priorPrefs := by
  exact ⟨by decide, by decide, by decide⟩

/-- Claim C5 as amended: only interval strings that `int()` cannot parse are
rejected; for those the error dialog is reported and the whole preference
state — interval and theme alike — keeps its prior value. -/
theorem claim5_unparsable_interval_rejected (app : AppPrefs)
    (refresh_var theme_var : String) (h : pyInt refresh_var = none) :
    apply_preferences app refresh_var theme_var =
      (app, ApplyOutcome.invalidInterval) := by
  simp [apply_preferences, h]

/-- Witness for the amended claim C5 at the interval string "abc". -/
theorem claim5_unparsable_interval_rejected_witness :
    pyInt "abc" = none ∧
    apply_preferences priorPrefs "abc" "clam" =
      (priorPrefs, ApplyOutcome.invalidInterval) :=
  ⟨by decide, claim5_unparsable_interval_rejected priorPrefs "abc" "clam" (by decide)⟩

/-- Claim C6 counterexample: with the Fahrenheit preference selected, a 20 °C
reading is still displayed as "20.0°C"; the conversion `F = C*9/5+32` the
claim requires would display 68.0. -/
theorem claim6_fahrenheit_not_converted :
    (rendered_view TemperatureUnit.fahrenheit readingC6).map ViewModel.tempText =
      some ("20.0" ++ "°C") ∧
    formatFixed1 (celsius_to_fahrenheit 20) = "68.0" ∧
    ("20.0" : String) ≠ "68.0" := by
  refine ⟨by decide, ?_, by decide⟩
  have h : celsius_to_fahrenheit 20 = 68 := by norm_num [celsius_to_fahrenheit]
  rw [h]
  decide

/-- Claim C6 as amended: the unit preference has no effect — for either
preference value, every temperature-like quantity in the ViewModel (current
temperature, feels-like, heat index, wind chill) is the raw Celsius value,
formatted with the `°C` suffix; no Fahrenheit conversion is ever applied. -/
theorem claim6_temperature_shown_in_celsius (u : TemperatureUnit) (r : Reading)
    (t fl : ℚ) (vm : ViewModel) (ht : r.temperature = some t)
    (hfl : r.feels_like = some fl) (hvm : rendered_view u r = some vm) :
    vm.tempText = formatFixed1 t ++ "°C" ∧
    vm.feelsLikeText = formatFixed1 fl ++ "°C" ∧
    vm.heatIndexText = "Heat Index: " ++ formatFixed1 (r.heat_index_c.getD 0) ++ "°C" ∧
    vm.windChillText = "Wind Chill: " ++ formatFixed1 (r.wind_chill_c.getD 0) ++ "°C" := by
  unfold rendered_view update_ui_with_data at hvm
  rw [ht, hfl] at hvm
  cases hd : r.weather_description <;> rw [hd] at hvm <;>
  cases hh : r.humidity <;> rw [hh] at hvm <;>
  cases hp : r.pressure <;> rw [hp] at hvm <;>
  cases hw : r.wind_speed <;> rw [hw] at hvm <;>
  cases hts : r.timestamp <;> rw [hts] at hvm <;>
  simp only [reduceCtorEq] at hvm
  · obtain ⟨rfl⟩ := Option.some.injEq .. ▸ hvm
    exact ⟨rfl, rfl, rfl, rfl⟩

/-- Witness for the amended claim C6 at `readingC6` with the Fahrenheit
preference. -/
theorem claim6_temperature_shown_in_celsius_witness :
    readingC6.temperature = some 20 ∧ readingC6.feels_like = some 19 ∧
    rendered_view TemperatureUnit.fahrenheit readingC6 = some vmC6 ∧
    vmC6.tempText = formatFixed1 20 ++ "°C" :=
  ⟨rfl, rfl, by decide,
    (claim6_temperature_shown_in_celsius TemperatureUnit.fahrenheit readingC6
      20 19 vmC6 rfl rfl (by decide)).1⟩

/-- Claim C7 counterexample: a query failure ("disk I/O error") during the
latest-reading fetch is reported with exactly the same status notification as
an empty result, while the claim requires the two outcomes to be reported
distinctly. -/
theorem claim7_failure_equals_no_data :
    load_data_background "New York, US" (Except.error "disk I/O error") =
      UiAction.status "No data available for selected city" ∧
    load_data_background "New York, US" (Except.error "disk I/O error") =
      load_data_background "New York, US" (Except.ok none) := by
  exact ⟨by decide, by decide⟩

/-- Claim C7 as amended: every connectivity/query failure in the
latest-reading query is caught inside `get_current_weather_data` (logged to
the console) and returned as an absent reading, so the orchestrator reports
it with the informational no-data status — identically to an empty result;
no error propagates uncaught, and no error object carrying the original
cause reaches the orchestrator. -/
theorem claim7_query_failure_swallowed (city e : String) :
    get_current_weather_data (Except.error e) = none ∧
    load_data_background city (Except.error e) =
      load_data_background city (Except.ok none) ∧
    load_data_background city (Except.error e) =
      UiAction.status "No data available for selected city" :=
  ⟨rfl, rfl, rfl⟩

/-- Claim C8 counterexample: with city "A, X" selected, the user selects
"B, Y"; the response for B is applied first and the late response for A —
whose city tag differs from the selected city at apply time — is applied
anyway, so the displayed view holds the data of A, not of B. -/
theorem claim8_stale_response_applied :
    (ui_run ⟨"A, X", none⟩
        [UIEvent.selectCity "B, Y",
         UIEvent.applyResponse "B, Y" readingB,
         UIEvent.applyResponse "A, X" readingA]) =
      ⟨"B, Y", some readingA⟩ ∧
    readingA ≠ readingB := by
  exact ⟨by decide, by decide⟩

/-- Claim C8 as amended: responses are applied unconditionally — no city-tag
comparison is performed at apply time — so after any interleaving the
displayed view holds the data of whichever response was applied last,
whatever city it was fetched for. -/
theorem claim8_last_applied_response_wins (s : AppState) (evs : List UIEvent)
    (tag : String) (d : Reading) :
    (ui_run s (evs ++ [UIEvent.applyResponse tag d])).current_data = some d := by
  simp [ui_run, List.foldl_append, ui_step]

/-- Claim C9 counterexample: from the state with one armed timer and no fetch
in flight, the trace of two consecutive timer fires is possible — the second
tick starts a new refresh cycle while the first cycle's fetch is still in
flight, violating the no-overlap requirement. -/
theorem claim9_overlap_possible :
    validTrace refreshInit [RefreshEvent.timerFire, RefreshEvent.timerFire] = true ∧
    noOverlap refreshInit [RefreshEvent.timerFire, RefreshEvent.timerFire] = false := by
  exact ⟨by decide, by decide⟩

/-- Claim C9 as amended: each `start_auto_refresh` tick consumes its fired
timer and arms exactly one future tick — at cycle start, not completion — so
however the loop interleaves with fetch completions and manual refreshes,
exactly one auto-refresh timer is always pending (never zero, never more than
one); overlap of cycles, however, is not prevented. -/
theorem claim9_exactly_one_timer_pending (s : RefreshState)
    (evs : List RefreshEvent) (h : s.pendingTimers = 1) :
    (refresh_run s evs).pendingTimers = 1 := by
  induction evs generalizing s with
  | nil => simpa [refresh_run] using h
  | cons e es ih =>
    have hstep : (refresh_step s e).pendingTimers = 1 := by
      cases e <;> simp [refresh_step, h]
    exact ih (refresh_step s e) hstep

/-- Witness for the amended claim C9: one timer remains pending across a
tick, a fetch completion and a manual refresh. -/
theorem claim9_exactly_one_timer_pending_witness :
    refreshInit.pendingTimers = 1 ∧
    (refresh_run refreshInit
        [RefreshEvent.timerFire, RefreshEvent.fetchComplete,
         RefreshEvent.manualRefresh]).pendingTimers = 1 :=
  ⟨rfl, claim9_exactly_one_timer_pending refreshInit _ rfl⟩

/-- Claim C10: a reading with no pressure field gets the default 1013 (not 0),
so it never produces a low-pressure alert when the low-pressure threshold is
below 1013; and a reading with every field absent produces no alert at all
under the default thresholds. -/
theorem claim10_missing_pressure_defaults :
    (∀ (th : AlertThresholds) (r : Reading), th.low_pressure < 1013 →
      r.pressure = none →
      (check_weather_alerts th r).filter (fun a => a.type == "pressure") = []) ∧
    check_weather_alerts defaultThresholds {} = [] := by
  constructor
  · intro th r hlp hpr
    unfold check_weather_alerts
    rw [hpr]
    simp only [Option.getD_none]
    rw [if_neg (lt_asymm hlp)]
    split_ifs <;> simp [List.filter]
  · decide

/-- Witness for claim C10 at the default thresholds and the all-absent
reading. -/
theorem claim10_missing_pressure_defaults_witness :
    defaultThresholds.low_pressure < 1013 ∧
    (check_weather_alerts defaultThresholds {}).filter
        (fun a => a.type == "pressure") = [] :=
  ⟨by decide, claim10_missing_pressure_defaults.1 defaultThresholds {} (by decide) rfl⟩
